import Mathlib

/-!
Shallow embedding of the prediction-telemetry and drift-monitoring core of
the MLOps churn repository (`src/mlops_churn/database.py` and
`src/mlops_churn/drift_detection.py`).

Machine state is passed explicitly; Python exceptions caught by the code are
modelled by outcome flags in `DbEnv` (connection establishment, statement
execution/commit) and by a non-serializable scalar constructor (for
`json.dumps` failures); exceptions that the code lets propagate are modelled
with `Except`-style error results.  Floats are modelled as `Rat`; timestamps
as `Nat`.
-/

namespace MLOpsChurn

/-- A scalar value inside a caller-supplied feature mapping.  `obj` stands
for a Python object that `json.dumps` cannot serialize (serialization of it
raises, which `log_prediction` catches). -/
inductive Scalar where
  | num (q : Rat)
  | str (s : String)
  | obj
deriving DecidableEq, Repr

/-- The raw feature mapping submitted by the caller (`input_data`),
a key → scalar document. -/
abbrev InputData := List (String × Scalar)

/-- Whether `json.dumps` succeeds on the mapping. -/
def serializableInput (d : InputData) : Bool :=
  d.all (fun p => match p.2 with | .obj => false | _ => true)

/-- A pooled database connection.  `autocommit` is the psycopg2 session flag
that `initialize_database` mutates. -/
structure Conn where
  id : Nat
  autocommit : Bool
deriving DecidableEq, Repr

/-- State of `psycopg2.pool.ThreadedConnectionPool(minconn=1, maxconn=5, ...)`
as configured by `get_connection_pool`: a bounded set of connections
partitioned into idle and in-use, plus a counter for fresh connection ids. -/
structure Pool where
  maxconn : Nat
  idle : List Conn
  used : List Conn
  nextId : Nat
deriving DecidableEq, Repr

/-- The pool error raised by `ThreadedConnectionPool.getconn` when the idle
set is empty and the pool is at capacity ("connection pool exhausted"). -/
inductive PoolError where
  | poolExhausted
deriving DecidableEq, Repr

/-- The freshly constructed pool of `get_connection_pool`: `minconn=1` opens
one idle connection up front, `maxconn=5` bounds the total. -/
def freshPool : Pool :=
  { maxconn := 5, idle := [{ id := 0, autocommit := false }], used := [], nextId := 1 }

/-- Model of `pool.getconn()`: hand out an idle connection if one exists; otherwise
open a new one while under `maxconn`; otherwise raise pool-exhausted.  It
never blocks. -/
def Pool.getconn (p : Pool) : Except PoolError (Conn × Pool) :=
  match p.idle with
  | c :: rest => .ok (c, { p with idle := rest, used := c :: p.used })
  | [] =>
    if p.used.length < p.maxconn then
      let c : Conn := { id := p.nextId, autocommit := false }
      .ok (c, { p with used := c :: p.used, nextId := p.nextId + 1 })
    else
      .error .poolExhausted

/-- Model of `pool.putconn(conn)`: return a connection to the idle set.  The in-use
entry is removed by connection identity (`id`), and session flags such as
`autocommit` are preserved as-is. -/
def Pool.putconn (p : Pool) (c : Conn) : Pool :=
  { p with idle := c :: p.idle, used := p.used.eraseP (fun x => x.id == c.id) }

/-- Outcome flags for the exception sites that the database module catches:
`connectOk` — whether pool/connection establishment succeeds inside
`get_db_connection`; `execOk` — whether the cursor execute + commit of the
current statement succeeds. -/
structure DbEnv where
  connectOk : Bool
  execOk : Bool
deriving DecidableEq, Repr

/-- Model of `get_db_connection()`: acquire from the pool, catching every exception
(including pool exhaustion) and returning `None` in that case. -/
def get_db_connection (env : DbEnv) (p : Pool) : Option Conn × Pool :=
  if env.connectOk then
    match p.getconn with
    | .ok (c, p') => (some c, p')
    | .error _ => (none, p)
  else
    (none, p)

/-- Model of `return_connection(conn)`: put the connection back if it is not `None`. -/
def return_connection (p : Pool) (c : Option Conn) : Pool :=
  match c with
  | some conn => p.putconn conn
  | none => p

/-- One row of the `predictions` table. -/
structure PredictionRow where
  timestamp : Nat
  input_data : InputData
  prediction : Rat
  model_version : String
deriving DecidableEq, Repr

/-- The `report_data` document persisted by `detect_drift`. -/
structure ReportData where
  drifted_columns : Nat
  drift_share : Rat
  sample_size : Nat
deriving DecidableEq, Repr

/-- The `predictions` row written by `log_prediction`. -/
def predRow (now : Nat) (input : InputData) (pred : Rat) (ver : String) :
    PredictionRow :=
  { timestamp := now, input_data := input, prediction := pred,
    model_version := ver }

/-- One row of the `drift_reports` table. -/
structure DriftReportRow where
  timestamp : Nat
  drift_detected : Bool
  drift_score : Rat
  feature_name : String
  drift_type : String
  report_data : ReportData
deriving DecidableEq, Repr

/-- The `drift_reports` row written by `log_drift_result`. -/
def driftRow (now : Nat) (dd : Bool) (score : Rat) (fname dtype : String)
    (rdata : ReportData) : DriftReportRow :=
  { timestamp := now, drift_detected := dd, drift_score := score,
    feature_name := fname, drift_type := dtype, report_data := rdata }

/-- Whole-system state: the process-wide pool, the two tables, and a count
of direct (non-pooled) `psycopg2.connect` connections that have been opened
and are still open. -/
structure SysState where
  pool : Pool
  predictions : List PredictionRow
  drift_reports : List DriftReportRow
  direct_open : Nat
deriving DecidableEq, Repr

/-- Model of `log_prediction(input_data, prediction, model_version)` from
`database.py`: acquire a pooled connection (returning `False` when that
yields `None`), insert one row with server-assigned timestamp `now`
(committing), catch any serialization/statement failure and return `False`,
and in all cases release the connection back to the pool in the `finally`
block. -/
def log_prediction (env : DbEnv) (now : Nat) (input : InputData)
    (pred : Rat) (ver : String) (s : SysState) : Bool × SysState :=
  match get_db_connection env s.pool with
  | (none, p') => (false, { s with pool := p' })
  | (some c, p') =>
    if serializableInput input && env.execOk then
      (true, { s with
        pool := p'.putconn c,
        predictions := s.predictions ++ [predRow now input pred ver] })
    else
      (false, { s with pool := p'.putconn c })

/-- Model of `log_drift_result(drift_detected, drift_score, feature_name,
drift_type, report_data)` from `database.py`: same acquire / insert one row / catch /
always-release shape as `log_prediction` (its `report_data` document is
always serializable). -/
def log_drift_result (env : DbEnv) (now : Nat) (dd : Bool) (score : Rat)
    (fname : String) (dtype : String) (rdata : ReportData)
    (s : SysState) : Bool × SysState :=
  match get_db_connection env s.pool with
  | (none, p') => (false, { s with pool := p' })
  | (some c, p') =>
    if env.execOk then
      (true, { s with
        pool := p'.putconn c,
        drift_reports := s.drift_reports ++ [driftRow now dd score fname dtype rdata] })
    else
      (false, { s with pool := p'.putconn c })

/-- Model of `initialize_database()` from `database.py`: acquire a pooled connection,
set `conn.autocommit = True` on it, run the two idempotent
`CREATE TABLE IF NOT EXISTS` statements (which do not change the modelled
table contents), catch failures, and release the connection — with its
`autocommit` flag still set — in the `finally` block. -/
def initialize_database (env : DbEnv) (s : SysState) : Bool × SysState :=
  match get_db_connection env s.pool with
  | (none, p') => (false, { s with pool := p' })
  | (some c, p') =>
    let c' : Conn := { c with autocommit := true }
    if env.execOk then
      (true, { s with pool := p'.putconn c' })
    else
      (false, { s with pool := p'.putconn c' })

/-- Seven days, the read window of `get_recent_predictions`, in seconds. -/
def DAYS7 : Nat := 7 * 24 * 3600

/-- Lower bound of the window: `datetime.now() - timedelta(days=7)`. -/
def cutoff (now : Nat) : Nat := now - DAYS7

/-- The SQL `WHERE timestamp >= %s` filter. -/
def inWindow (now : Nat) (r : PredictionRow) : Bool :=
  cutoff now ≤ r.timestamp

/-- Comparison used by `ORDER BY timestamp DESC`: newer rows first. -/
def tsDesc (a b : PredictionRow) : Prop := b.timestamp ≤ a.timestamp

instance : DecidableRel tsDesc := fun a b => Nat.decLe _ _

instance : IsTotal PredictionRow tsDesc :=
  ⟨fun a b => show b.timestamp ≤ a.timestamp ∨ a.timestamp ≤ b.timestamp from
    (Nat.le_total a.timestamp b.timestamp).symm⟩

instance : IsTrans PredictionRow tsDesc :=
  ⟨fun _ _ _ h1 h2 => Nat.le_trans h2 h1⟩

/-- Model of `get_recent_predictions()` from `drift_detection.py`: open a **direct**
`psycopg2.connect(**DB_CONN)` connection (not from the pool; the `with`
block ends the transaction but does not close the connection), run
`SELECT input_data FROM predictions WHERE timestamp >= now - 7 days
ORDER BY timestamp DESC LIMIT 50`, and return the `input_data` payloads if
at least 10 rows came back, else `None`. -/
def get_recent_predictions (now : Nat) (s : SysState) :
    Option (List InputData) × SysState :=
  let s' := { s with direct_open := s.direct_open + 1 }
  let rows :=
    ((s.predictions.filter (inWindow now)).insertionSort tsDesc).take 50
  (if rows.length ≥ 10 then some (rows.map (·.input_data)) else none, s')

/-- The reference snapshot: a tabular baseline, feature name → observed
values. -/
structure RefData where
  columns : List (String × List Rat)
deriving DecidableEq, Repr

/-- Environment of a drift run: whether the reference parquet snapshot is
present and readable (`pd.read_parquet` raises otherwise), and the
statistical verdict of the evidently `DataDriftPreset` report on the two
samples, abstracted as its `share` (fraction of drifted columns) and
`count` (number of drifted columns) outputs. -/
structure DriftEnv where
  reference : Option RefData
  evidently : RefData → List InputData → Rat × Nat

/-- Python `round(x, 3)`.  (Python rounds half to even on floats; the two
agree except at exact `.0005` ties, on which no claim depends.) -/
def round3 (q : Rat) : Rat := (round (q * 1000) : Int) / 1000

/-- The error a drift run can die with: the reference load raised and the
exception propagated out of `detect_drift`. -/
inductive DriftError where
  | referenceUnavailable
deriving DecidableEq, Repr

/-- Model of `detect_drift()` from `drift_detection.py`: load the reference (a load
failure propagates), load the current sample (return `False` if gated as
insufficient), run the evidently report, round the share to 3 decimals,
take `dataset_drift = drift_share > 0.5`, log one drift report — ignoring
`log_drift_result`'s boolean result — and return `True`. -/
def detect_drift (env : DriftEnv) (denv : DbEnv) (now : Nat)
    (s : SysState) : Except DriftError Bool × SysState :=
  match env.reference with
  | none => (.error .referenceUnavailable, s)
  | some ref =>
    match get_recent_predictions now s with
    | (none, s1) => (.ok false, s1)
    | (some cur, s1) =>
      let res := env.evidently ref cur
      let drift_share := round3 res.1
      let drifted_columns := res.2
      let dataset_drift : Bool := drift_share > 1/2
      let out := log_drift_result denv now dataset_drift drift_share
        (toString drifted_columns ++ "_columns_drifted") "data_drift"
        { drifted_columns := drifted_columns, drift_share := drift_share,
          sample_size := cur.length } s1
      (.ok true, out.2)

/-- Performs `n` successive un-released `getconn` acquisitions. -/
def getconnN : Nat → Pool → Except PoolError Pool
  | 0, p => .ok p
  | n + 1, p =>
    match p.getconn with
    | .ok (_, p') => getconnN n p'
    | .error e => .error e

/-- The pool reached from `freshPool` after 5 successful un-released
acquisitions: empty idle set, 5 connections in use. -/
def pool5 : Pool :=
  { maxconn := 5, idle := [],
    used := [⟨4, false⟩, ⟨3, false⟩, ⟨2, false⟩, ⟨1, false⟩, ⟨0, false⟩],
    nextId := 5 }

/-- Fresh process state: new pool, both tables empty, no direct
connections. -/
def emptyState : SysState :=
  { pool := freshPool, predictions := [], drift_reports := [], direct_open := 0 }

/-- A concrete served-prediction row with the given timestamp. -/
def mkRow (t : Nat) : PredictionRow :=
  { timestamp := t, input_data := [("CreditScore", Scalar.num 650)],
    prediction := 73/100, model_version := "v3" }

/-- State holding 10 predictions with timestamps 1000000..1000009, all inside
the 7-day window of `now = 1000000`. -/
def tenRowState : SysState :=
  { pool := freshPool,
    predictions := (List.range 10).map (fun i => mkRow (1000000 + i)),
    drift_reports := [], direct_open := 0 }

/-- A prediction row carrying an arbitrary score. -/
def scoreRow (t : Nat) (q : Rat) : PredictionRow :=
  { timestamp := t, input_data := [("CreditScore", Scalar.num 650)],
    prediction := q, model_version := "v3" }

/-- Ten in-window rows whose scores are all `q`. -/
def stateWithScore (q : Rat) : SysState :=
  { pool := freshPool,
    predictions :=
      [scoreRow 1000000 q, scoreRow 1000001 q, scoreRow 1000002 q,
       scoreRow 1000003 q, scoreRow 1000004 q, scoreRow 1000005 q,
       scoreRow 1000006 q, scoreRow 1000007 q, scoreRow 1000008 q,
       scoreRow 1000009 q],
    drift_reports := [], direct_open := 0 }

/-- A drift environment whose reference snapshot is present and whose
evidently verdict is the constant `(share = 1, count = 14)`. -/
def driftEnvConst : DriftEnv :=
  { reference := some { columns := [] }, evidently := fun _ _ => (1, 14) }

/-- A drift environment whose reference snapshot is missing. -/
def driftEnvNoRef : DriftEnv :=
  { reference := none, evidently := fun _ _ => (0, 0) }

/-- Nine in-window predictions with timestamps 100..108, one short of the
minimum sample. -/
def nineRowState : SysState :=
  { pool := freshPool,
    predictions := (List.range 9).map (fun i => mkRow (100 + i)),
    drift_reports := [], direct_open := 0 }

/-- C8: with the configured maximum of 5 connections, 5 un-released
acquisitions from the fresh pool succeed and leave the idle set empty; the
6th `getconn` fails immediately with the pool-exhausted error (the modelled
`getconn` is a total function — it cannot block or queue); after releasing
one connection the next `getconn` succeeds. -/
theorem c8_pool_bound :
    getconnN 5 freshPool = .ok pool5
    ∧ pool5.getconn = .error .poolExhausted
    ∧ (pool5.putconn ⟨0, false⟩).getconn
        = .ok (⟨0, false⟩,
          { maxconn := 5, idle := [],
            used := [⟨0, false⟩, ⟨4, false⟩, ⟨3, false⟩, ⟨2, false⟩, ⟨1, false⟩],
            nextId := 5 }) :=
  ⟨rfl, rfl, rfl⟩

/-- C9: when the reference snapshot is missing/unreadable, the load error
propagates out of `detect_drift` before any comparison, the whole state is
left untouched, and in particular no drift-report row — partial or
complete — is written. -/
theorem c9_reference_failure (env : DriftEnv) (denv : DbEnv) (now : Nat)
    (s : SysState) (h : env.reference = none) :
    detect_drift env denv now s = (.error .referenceUnavailable, s) := by
  unfold detect_drift
  rw [h]

/-- Witness for C9 at a concrete environment and state. -/
theorem c9_reference_failure_witness :
    detect_drift driftEnvNoRef ⟨true, true⟩ 0 emptyState
      = (.error .referenceUnavailable, emptyState) :=
  c9_reference_failure driftEnvNoRef ⟨true, true⟩ 0 emptyState rfl

/-- C5 counterexample: `get_recent_predictions` does not obtain its
connection from the pool.  On a concrete state it leaves the pool entirely
untouched and opens one direct, non-pooled connection, refuting "no
operation opens a direct, non-pooled connection". -/
theorem c5_direct_connection_counterexample :
    (get_recent_predictions 1000000 tenRowState).2.pool = tenRowState.pool
    ∧ (get_recent_predictions 1000000 tenRowState).2.direct_open
        = tenRowState.direct_open + 1 :=
  ⟨rfl, rfl⟩

/-- C5 amended: the three `database.py` operations (`log_prediction`,
`log_drift_result`, `initialize_database`) interact only with the pool and
never open a direct connection, while `get_recent_predictions` opens a
direct `psycopg2.connect(**DB_CONN)` connection and never touches the
pool. -/
theorem c5_connection_discipline (env : DbEnv) (now : Nat) (input : InputData)
    (pred : Rat) (ver : String) (dd : Bool) (score : Rat)
    (fname dtype : String) (rdata : ReportData) (s : SysState) :
    (log_prediction env now input pred ver s).2.direct_open = s.direct_open
    ∧ (log_drift_result env now dd score fname dtype rdata s).2.direct_open
        = s.direct_open
    ∧ (initialize_database env s).2.direct_open = s.direct_open
    ∧ (get_recent_predictions now s).2.pool = s.pool
    ∧ (get_recent_predictions now s).2.direct_open = s.direct_open + 1 := by
  refine ⟨?_, ?_, ?_, rfl, rfl⟩
  · unfold log_prediction
    rcases h : get_db_connection env s.pool with ⟨_ | c, p2⟩
    · rfl
    · dsimp only
      split <;> rfl
  · unfold log_drift_result
    rcases h : get_db_connection env s.pool with ⟨_ | c, p2⟩
    · rfl
    · dsimp only
      split <;> rfl
  · unfold initialize_database
    rcases h : get_db_connection env s.pool with ⟨_ | c, p2⟩
    · rfl
    · dsimp only
      split <;> rfl

/-- C6 counterexample: `get_recent_predictions` acquires a connection (a
direct one) and releases nothing back to the pool's idle set on exit — its
direct connection stays open (the `with` block ends the transaction, not
the connection) and the idle set is unchanged, refuting "every TelemetryStore
operation releases the connection it acquired back to the pool's idle set". -/
theorem c6_leak_counterexample :
    (get_recent_predictions 42 emptyState).2.direct_open = 1
    ∧ (get_recent_predictions 42 emptyState).2.pool.idle = emptyState.pool.idle :=
  ⟨rfl, rfl⟩

lemma append_singleton_ne {α : Type _} (l : List α) (a : α) : l ≠ l ++ [a] := by
  intro h
  have := congrArg List.length h
  simp at this

lemma getconn_ok_of_capacity (p : Pool)
    (h : p.idle ≠ [] ∨ p.used.length < p.maxconn) :
    ∃ c p', p.getconn = .ok (c, p') := by
  unfold Pool.getconn
  cases hidle : p.idle with
  | cons c rest => exact ⟨c, _, rfl⟩
  | nil =>
    rcases h with h | h
    · exact absurd hidle h
    · rw [if_pos h]
      exact ⟨_, _, rfl⟩

lemma putconn_after_getconn (p : Pool) (c : Conn) (p' : Pool)
    (h : p.getconn = .ok (c, p')) (c' : Conn) (hid : c'.id = c.id) :
    (p'.putconn c').used = p.used
    ∧ p.idle.length ≤ (p'.putconn c').idle.length := by
  unfold Pool.getconn at h
  cases hidle : p.idle with
  | cons d rest =>
    rw [hidle] at h
    cases h
    unfold Pool.putconn
    constructor
    · simp [List.eraseP_cons, hid]
    · simp [hidle]
  | nil =>
    rw [hidle] at h
    by_cases hcap : p.used.length < p.maxconn
    · rw [if_pos hcap] at h
      cases h
      unfold Pool.putconn
      constructor
      · simp [List.eraseP_cons, hid]
      · simp [hidle]
    · rw [if_neg hcap] at h
      cases h

lemma get_db_connection_spec (env : DbEnv) (p : Pool) :
    get_db_connection env p = (none, p)
    ∨ ∃ c p', get_db_connection env p = (some c, p') ∧ p.getconn = .ok (c, p') := by
  unfold get_db_connection
  cases henv : env.connectOk with
  | false => simp
  | true =>
    simp only [if_true]
    cases hg : p.getconn with
    | error e => simp
    | ok cp => exact Or.inr ⟨cp.1, cp.2, rfl, rfl⟩

/-- C6 amended: the three pooled operations (`log_prediction`,
`log_drift_result`, `initialize_database`) release the connection they
acquired back to the pool on every exit path — success or caught failure —
leaving the in-use set exactly as before and never shrinking the idle set,
so no pooled connection is leaked; `get_recent_predictions`, by contrast,
uses a direct non-pooled connection which the pool never sees (see the
counterexample). -/
theorem c6_pooled_release (env : DbEnv) (now : Nat) (input : InputData)
    (pred : Rat) (ver : String) (dd : Bool) (score : Rat)
    (fname dtype : String) (rdata : ReportData) (s : SysState) :
    ((log_prediction env now input pred ver s).2.pool.used = s.pool.used
      ∧ s.pool.idle.length
          ≤ (log_prediction env now input pred ver s).2.pool.idle.length)
    ∧ ((log_drift_result env now dd score fname dtype rdata s).2.pool.used
          = s.pool.used
      ∧ s.pool.idle.length
          ≤ (log_drift_result env now dd score fname dtype rdata s).2.pool.idle.length)
    ∧ ((initialize_database env s).2.pool.used = s.pool.used
      ∧ s.pool.idle.length
          ≤ (initialize_database env s).2.pool.idle.length) := by
  refine ⟨?_, ?_, ?_⟩
  · unfold log_prediction
    rcases get_db_connection_spec env s.pool with he | ⟨c, p', he, hg⟩
    · rw [he]
      exact ⟨rfl, Nat.le_refl _⟩
    · rw [he]
      dsimp only
      have := putconn_after_getconn s.pool c p' hg c rfl
      split <;> exact this
  · unfold log_drift_result
    rcases get_db_connection_spec env s.pool with he | ⟨c, p', he, hg⟩
    · rw [he]
      exact ⟨rfl, Nat.le_refl _⟩
    · rw [he]
      dsimp only
      have := putconn_after_getconn s.pool c p' hg c rfl
      split <;> exact this
  · unfold initialize_database
    rcases get_db_connection_spec env s.pool with he | ⟨c, p', he, hg⟩
    · rw [he]
      exact ⟨rfl, Nat.le_refl _⟩
    · rw [he]
      dsimp only
      have := putconn_after_getconn s.pool c p' hg { c with autocommit := true } rfl
      split <;> exact this

/-- C6 witness: on a concrete state where the statement execution fails (a
caught failure), `log_prediction` still leaves the in-use set unchanged and
the idle set no smaller. -/
theorem c6_pooled_release_witness :
    (log_prediction ⟨true, false⟩ 5 [("CreditScore", Scalar.num 650)]
        (73/100) "v3" emptyState).2.pool.used = emptyState.pool.used
    ∧ emptyState.pool.idle.length
        ≤ (log_prediction ⟨true, false⟩ 5 [("CreditScore", Scalar.num 650)]
            (73/100) "v3" emptyState).2.pool.idle.length :=
  (c6_pooled_release ⟨true, false⟩ 5 [("CreditScore", Scalar.num 650)]
    (73/100) "v3" true 0 "f" "d" ⟨0, 0, 0⟩ emptyState).1

/-- C10: `initialize_database` flips the acquired connection's `autocommit`
flag to true and releases it to the idle set without restoring it, so the
very next acquisition from the pool hands out a connection whose
`autocommit` is still enabled. -/
theorem c10_autocommit_not_restored (env : DbEnv) (s : SysState)
    (h1 : env.connectOk = true)
    (h2 : s.pool.idle ≠ [] ∨ s.pool.used.length < s.pool.maxconn) :
    ∃ c p', ((initialize_database env s).2.pool).getconn = .ok (c, p')
      ∧ c.autocommit = true := by
  obtain ⟨c, p', hg⟩ := getconn_ok_of_capacity s.pool h2
  have he : get_db_connection env s.pool = (some c, p') := by
    unfold get_db_connection
    rw [h1, if_pos rfl, hg]
  unfold initialize_database
  rw [he]
  dsimp only
  split <;> exact ⟨_, _, rfl, rfl⟩

/-- Witness for C10 on a fresh state with a working connection. -/
theorem c10_autocommit_not_restored_witness :
    ∃ c p', ((initialize_database ⟨true, true⟩ emptyState).2.pool).getconn
        = .ok (c, p') ∧ c.autocommit = true :=
  c10_autocommit_not_restored ⟨true, true⟩ emptyState rfl (Or.inl (by decide))

/-- C4: `log_prediction` and `log_drift_result` are total (they never raise
to their caller; every caught exception site is an explicit branch of the
embedding); each returns `true` iff its single row was inserted and
committed, leaves the table unchanged when it returns `false`, and returns
`false` on any connection, serialization, or statement failure. -/
theorem c4_log_ops_no_raise (env : DbEnv) (now : Nat) (input : InputData)
    (pred : Rat) (ver : String) (dd : Bool) (score : Rat)
    (fname dtype : String) (rdata : ReportData) (s : SysState) :
    (((log_prediction env now input pred ver s).1 = true
        ↔ (log_prediction env now input pred ver s).2.predictions
            = s.predictions ++ [predRow now input pred ver])
      ∧ ((log_prediction env now input pred ver s).1 = false
          → (log_prediction env now input pred ver s).2.predictions
              = s.predictions)
      ∧ ((get_db_connection env s.pool).1 = none
            ∨ serializableInput input = false ∨ env.execOk = false
          → (log_prediction env now input pred ver s).1 = false))
    ∧ (((log_drift_result env now dd score fname dtype rdata s).1 = true
        ↔ (log_drift_result env now dd score fname dtype rdata s).2.drift_reports
            = s.drift_reports ++ [driftRow now dd score fname dtype rdata])
      ∧ ((log_drift_result env now dd score fname dtype rdata s).1 = false
          → (log_drift_result env now dd score fname dtype rdata s).2.drift_reports
              = s.drift_reports)
      ∧ ((get_db_connection env s.pool).1 = none ∨ env.execOk = false
          → (log_drift_result env now dd score fname dtype rdata s).1 = false)) := by
  rcases hgd : get_db_connection env s.pool with ⟨oc, p2⟩
  cases oc with
  | none =>
    refine ⟨⟨?_, ?_, ?_⟩, ?_, ?_, ?_⟩ <;>
      simp [log_prediction, log_drift_result, hgd, append_singleton_ne]
  | some c =>
    constructor
    · by_cases hser : serializableInput input = true
      · cases hex : env.execOk with
        | true =>
          refine ⟨?_, ?_, ?_⟩ <;>
            simp [log_prediction, hgd, hser, hex]
        | false =>
          refine ⟨?_, ?_, ?_⟩ <;>
            simp [log_prediction, hgd, hser, hex, append_singleton_ne]
      · have hser' : serializableInput input = false := by
          cases h : serializableInput input
          · rfl
          · exact absurd h hser
        refine ⟨?_, ?_, ?_⟩ <;>
          simp [log_prediction, hgd, hser', append_singleton_ne]
    · cases hex : env.execOk with
      | true =>
        refine ⟨?_, ?_, ?_⟩ <;>
          simp [log_drift_result, hgd, hex]
      | false =>
        refine ⟨?_, ?_, ?_⟩ <;>
          simp [log_drift_result, hgd, hex, append_singleton_ne]

/-- C4 witness: a concrete statement failure makes `log_prediction` return
`false` (without raising), by the third conjunct of the theorem. -/
theorem c4_log_ops_no_raise_witness :
    (log_prediction ⟨true, false⟩ 5 [("CreditScore", Scalar.num 650)]
        (73/100) "v3" emptyState).1 = false :=
  (c4_log_ops_no_raise ⟨true, false⟩ 5 [("CreditScore", Scalar.num 650)]
      (73/100) "v3" true 0 "f" "d" ⟨0, 0, 0⟩ emptyState).1.2.2
    (Or.inr (Or.inr rfl))

lemma recent_rows_length (now : Nat) (s : SysState) :
    (((s.predictions.filter (inWindow now)).insertionSort tsDesc).take 50).length
      = min (s.predictions.filter (inWindow now)).length 50 := by
  rw [List.length_take, (List.perm_insertionSort tsDesc _).length_eq, Nat.min_comm]

/-- C2: `get_recent_predictions` returns the gating sentinel `none` iff
fewer than 10 rows lie in the 7-day window; otherwise it returns exactly the
`input_data` payloads of the newest-first ordering of the matching rows
capped at 50 — the ordering being a genuine descending-timestamp sort (a
sorted permutation of the matching rows). -/
theorem c2_recent_predictions (now : Nat) (s : SysState) :
    ((get_recent_predictions now s).1 = none
      ↔ (s.predictions.filter (inWindow now)).length < 10)
    ∧ ∀ l, (get_recent_predictions now s).1 = some l →
        l = (((s.predictions.filter (inWindow now)).insertionSort tsDesc).take 50).map
              (fun r => r.input_data)
        ∧ ((s.predictions.filter (inWindow now)).insertionSort tsDesc).Perm
            (s.predictions.filter (inWindow now))
        ∧ List.Sorted tsDesc
            ((s.predictions.filter (inWindow now)).insertionSort tsDesc)
        ∧ l.length = min (s.predictions.filter (inWindow now)).length 50 := by
  have hlen := recent_rows_length now s
  unfold get_recent_predictions
  dsimp only
  constructor
  · split_ifs with h
    · rw [hlen] at h
      have hge : ¬ (s.predictions.filter (inWindow now)).length < 10 := by omega
      simp [hge]
    · rw [hlen] at h
      have hlt : (s.predictions.filter (inWindow now)).length < 10 := by omega
      simp [hlt]
  · intro l hl
    split_ifs at hl with h
    · cases hl
      refine ⟨rfl, List.perm_insertionSort tsDesc _, List.sorted_insertionSort tsDesc _, ?_⟩
      rw [List.length_map, hlen]

/-- C2 witness: the theorem instantiated at a concrete 10-row state. -/
theorem c2_recent_predictions_witness :
    (get_recent_predictions 1000000 tenRowState).1 = none
      ↔ (tenRowState.predictions.filter (inWindow 1000000)).length < 10 :=
  (c2_recent_predictions 1000000 tenRowState).1

lemma log_drift_result_reports (env : DbEnv) (now : Nat) (dd : Bool)
    (score : Rat) (fname dtype : String) (rdata : ReportData) (s : SysState) :
    ((log_drift_result env now dd score fname dtype rdata s).2.drift_reports
        = s.drift_reports
      ∨ (log_drift_result env now dd score fname dtype rdata s).2.drift_reports
          = s.drift_reports ++ [driftRow now dd score fname dtype rdata])
    ∧ (env.connectOk = true → env.execOk = true →
        (s.pool.idle ≠ [] ∨ s.pool.used.length < s.pool.maxconn) →
        (log_drift_result env now dd score fname dtype rdata s).2.drift_reports
          = s.drift_reports ++ [driftRow now dd score fname dtype rdata]) := by
  constructor
  · rcases get_db_connection_spec env s.pool with he | ⟨c, p', he, hg⟩
    · unfold log_drift_result
      rw [he]
      exact Or.inl rfl
    · unfold log_drift_result
      rw [he]
      dsimp only
      split
      · exact Or.inr rfl
      · exact Or.inl rfl
  · intro hc hx hcap
    obtain ⟨c, p', hg⟩ := getconn_ok_of_capacity s.pool hcap
    have he : get_db_connection env s.pool = (some c, p') := by
      unfold get_db_connection
      rw [hc, if_pos rfl, hg]
    unfold log_drift_result
    rw [he]
    dsimp only
    rw [if_pos hx]

lemma recent_rows_ge (now : Nat) (s : SysState)
    (hgate : 10 ≤ (s.predictions.filter (inWindow now)).length) :
    10 ≤ (((s.predictions.filter (inWindow now)).insertionSort tsDesc).take 50).length := by
  rw [recent_rows_length]
  omega

lemma detect_drift_gated (env : DriftEnv) (denv : DbEnv) (now : Nat)
    (s : SysState) (ref : RefData) (href : env.reference = some ref)
    (hlt : (s.predictions.filter (inWindow now)).length < 10) :
    detect_drift env denv now s
      = (.ok false, { s with direct_open := s.direct_open + 1 }) := by
  have hlen : ¬ 10 ≤ (((s.predictions.filter (inWindow now)).insertionSort tsDesc).take 50).length := by
    rw [recent_rows_length]
    omega
  unfold detect_drift
  rw [href]
  unfold get_recent_predictions
  dsimp only
  rw [if_neg hlen]

lemma detect_drift_complete (env : DriftEnv) (denv : DbEnv) (now : Nat)
    (s : SysState) (ref : RefData) (href : env.reference = some ref)
    (hgate : 10 ≤ (s.predictions.filter (inWindow now)).length) :
    ∃ cur : List InputData,
      (get_recent_predictions now s).1 = some cur
      ∧ cur = (((s.predictions.filter (inWindow now)).insertionSort tsDesc).take 50).map
          (fun r => r.input_data)
      ∧ detect_drift env denv now s
          = (.ok true,
            (log_drift_result denv now
              (decide (round3 (env.evidently ref cur).1 > 1/2))
              (round3 (env.evidently ref cur).1)
              (toString (env.evidently ref cur).2 ++ "_columns_drifted")
              "data_drift"
              { drifted_columns := (env.evidently ref cur).2,
                drift_share := round3 (env.evidently ref cur).1,
                sample_size := cur.length }
              { s with direct_open := s.direct_open + 1 }).2) := by
  have hlen := recent_rows_ge now s hgate
  refine ⟨_, ?_, rfl, ?_⟩
  · unfold get_recent_predictions
    dsimp only
    rw [if_pos hlen]
  · unfold detect_drift
    rw [href]
    unfold get_recent_predictions
    dsimp only
    rw [if_pos hlen]

/-- C1 counterexample: a run that completes the comparison but whose report
insert fails (a caught persistence failure inside `log_drift_result`, whose
boolean result `detect_drift` ignores) returns `true` while **no**
`DriftReport` row is written — refuting "it returns true if and only if a
DriftReport was produced, with exactly one report written per completed
run". -/
theorem c1_true_without_report_counterexample :
    (detect_drift driftEnvConst ⟨true, false⟩ 1000000 tenRowState).1 = .ok true
    ∧ (detect_drift driftEnvConst ⟨true, false⟩ 1000000 tenRowState).2.drift_reports
        = [] :=
  ⟨rfl, rfl⟩

/-- C1 amended: with the reference snapshot readable, a run gated as
insufficient (fewer than 10 rows in the window) returns `false` and writes
no report; a completed run returns `true` and attempts exactly one report
write — at most one row is written, and exactly one when the write
succeeds — but the `true` return does not guarantee a report was persisted,
because `detect_drift` discards `log_drift_result`'s failure signal. -/
theorem c1_run_semantics (env : DriftEnv) (denv : DbEnv) (now : Nat)
    (s : SysState) (ref : RefData) (href : env.reference = some ref) :
    ((s.predictions.filter (inWindow now)).length < 10 →
      (detect_drift env denv now s).1 = .ok false
      ∧ (detect_drift env denv now s).2.drift_reports = s.drift_reports)
    ∧ (10 ≤ (s.predictions.filter (inWindow now)).length →
      (detect_drift env denv now s).1 = .ok true
      ∧ ((detect_drift env denv now s).2.drift_reports = s.drift_reports
         ∨ ∃ rep, (detect_drift env denv now s).2.drift_reports
             = s.drift_reports ++ [rep])
      ∧ (denv.connectOk = true → denv.execOk = true →
          (s.pool.idle ≠ [] ∨ s.pool.used.length < s.pool.maxconn) →
          ∃ rep, (detect_drift env denv now s).2.drift_reports
            = s.drift_reports ++ [rep])) := by
  constructor
  · intro hlt
    rw [detect_drift_gated env denv now s ref href hlt]
    exact ⟨rfl, rfl⟩
  · intro hgate
    obtain ⟨cur, _, _, heq⟩ := detect_drift_complete env denv now s ref href hgate
    rw [heq]
    set s1 : SysState := { s with direct_open := s.direct_open + 1 } with hs1
    refine ⟨rfl, ?_, ?_⟩
    · rcases (log_drift_result_reports denv now _ _ _ _ _ s1).1 with h | h
      · exact Or.inl h
      · exact Or.inr ⟨_, h⟩
    · intro hc hx hcap
      exact ⟨_, (log_drift_result_reports denv now _ _ _ _ _ s1).2 hc hx hcap⟩

/-- C1 witness: on a concrete 10-row state with a healthy database the
completed run returns `true` and appends one report. -/
theorem c1_run_semantics_witness :
    (detect_drift driftEnvConst ⟨true, true⟩ 1000000 tenRowState).1 = .ok true
    ∧ ∃ rep, (detect_drift driftEnvConst ⟨true, true⟩ 1000000 tenRowState).2.drift_reports
        = tenRowState.drift_reports ++ [rep] := by
  have h := (c1_run_semantics driftEnvConst ⟨true, true⟩ 1000000 tenRowState
    { columns := [] } rfl).2 (by decide)
  exact ⟨h.1, h.2.2 rfl rfl (Or.inl (by decide))⟩

/-- C3: whenever a completed drift run's report write succeeds, the single
appended row has `drift_score` equal to the evidently drift share rounded to
3 decimals, `drift_detected` true iff that rounded share is strictly greater
than `0.5`, `feature_name` equal to `"{driftedCount}_columns_drifted"`,
`drift_type` equal to `"data_drift"`, and `report_data` holding exactly the
drifted-column count, the rounded share, and the current sample's row
count. -/
theorem c3_report_contents (env : DriftEnv) (denv : DbEnv) (now : Nat)
    (s : SysState) (ref : RefData) (href : env.reference = some ref)
    (hgate : 10 ≤ (s.predictions.filter (inWindow now)).length)
    (hconn : denv.connectOk = true) (hexec : denv.execOk = true)
    (hcap : s.pool.idle ≠ [] ∨ s.pool.used.length < s.pool.maxconn) :
    ∃ cur : List InputData,
      (get_recent_predictions now s).1 = some cur
      ∧ (detect_drift env denv now s).2.drift_reports
          = s.drift_reports ++
            [driftRow now (decide (round3 (env.evidently ref cur).1 > 1/2))
              (round3 (env.evidently ref cur).1)
              (toString (env.evidently ref cur).2 ++ "_columns_drifted")
              "data_drift"
              { drifted_columns := (env.evidently ref cur).2,
                drift_share := round3 (env.evidently ref cur).1,
                sample_size := cur.length }] := by
  obtain ⟨cur, hsome, _, heq⟩ := detect_drift_complete env denv now s ref href hgate
  refine ⟨cur, hsome, ?_⟩
  rw [heq]
  exact (log_drift_result_reports denv now _ _ _ _ _
    { s with direct_open := s.direct_open + 1 }).2 hconn hexec hcap

/-- C3 witness at a concrete completed run with a healthy database. -/
theorem c3_report_contents_witness :
    ∃ cur : List InputData,
      (get_recent_predictions 1000000 tenRowState).1 = some cur
      ∧ (detect_drift driftEnvConst ⟨true, true⟩ 1000000 tenRowState).2.drift_reports
          = tenRowState.drift_reports ++
            [driftRow 1000000
              (decide (round3 (driftEnvConst.evidently { columns := [] } cur).1 > 1/2))
              (round3 (driftEnvConst.evidently { columns := [] } cur).1)
              (toString (driftEnvConst.evidently { columns := [] } cur).2
                ++ "_columns_drifted")
              "data_drift"
              { drifted_columns := (driftEnvConst.evidently { columns := [] } cur).2,
                drift_share := round3 (driftEnvConst.evidently { columns := [] } cur).1,
                sample_size := cur.length }] :=
  c3_report_contents driftEnvConst ⟨true, true⟩ 1000000 tenRowState
    { columns := [] } rfl (by decide) rfl rfl (Or.inl (by decide))

lemma head_insertionSort_max (l : List PredictionRow) (a : PredictionRow)
    (ha : a ∈ l)
    (hmax : ∀ x ∈ l, x.timestamp ≤ a.timestamp)
    (huniq : ∀ x ∈ l, x.timestamp = a.timestamp → x = a) :
    (l.insertionSort tsDesc).head? = some a := by
  have hperm := List.perm_insertionSort tsDesc l
  have hsorted := List.sorted_insertionSort tsDesc l
  have hmem : a ∈ l.insertionSort tsDesc := hperm.mem_iff.mpr ha
  cases hsort : l.insertionSort tsDesc with
  | nil =>
    rw [hsort] at hmem
    cases hmem
  | cons h t =>
    rw [hsort] at hmem hsorted
    rw [List.sorted_cons] at hsorted
    have hh_mem : h ∈ l := hperm.mem_iff.mp (by rw [hsort]; exact List.mem_cons_self h t)
    have hle : h.timestamp ≤ a.timestamp := hmax h hh_mem
    rcases List.mem_cons.mp hmem with rfl | hat
    · rfl
    · have hge : a.timestamp ≤ h.timestamp := hsorted.1 a hat
      have heq : h = a := huniq h hh_mem (Nat.le_antisymm hle hge)
      rw [heq]
      rfl

/-- C7 counterexample: `recentPredictions` selects only `input_data`, so its
result carries no `predictionScore` or `modelVersion` whatsoever.  Two
concrete stores that differ only in the logged prediction score (0.73 vs
0.5) produce **identical** results, so the result cannot contain a record
whose `predictionScore` equals the logged score — refuting the claim as
stated. -/
theorem c7_score_not_returned_counterexample :
    (get_recent_predictions 1000000 (stateWithScore (73/100))).1
      = (get_recent_predictions 1000000 (stateWithScore (1/2))).1
    ∧ stateWithScore (73/100) ≠ stateWithScore (1/2)
    ∧ (73/100 : Rat) ≠ 1/2 := by
  refine ⟨rfl, ?_, by norm_num⟩
  intro hcon
  have h2 := congrArg (fun st => st.predictions.head?) hcon
  simp only [stateWithScore, List.head?_cons, Option.some.injEq] at h2
  have h3 := congrArg PredictionRow.prediction h2
  simp only [scoreRow] at h3
  norm_num at h3

/-- C7 amended: a successful `log_prediction` whose server-assigned
timestamp is inside the read window and newer than every existing row,
followed by `recentPredictions` over a window already holding at least 9
other rows, returns the logged `input_data` mapping as its newest (first)
payload; the prediction score and model version are stored but not part of
the read-back (see the counterexample). -/
theorem c7_roundtrip (denv : DbEnv) (ts nowR : Nat) (input : InputData)
    (pred : Rat) (ver : String) (s : SysState)
    (hser : serializableInput input = true)
    (hconn : denv.connectOk = true) (hexec : denv.execOk = true)
    (hcap : s.pool.idle ≠ [] ∨ s.pool.used.length < s.pool.maxconn)
    (hwin : cutoff nowR ≤ ts)
    (hfresh : ∀ r ∈ s.predictions, r.timestamp < ts)
    (hmin : 9 ≤ (s.predictions.filter (inWindow nowR)).length) :
    (log_prediction denv ts input pred ver s).1 = true
    ∧ ∃ l, (get_recent_predictions nowR (log_prediction denv ts input pred ver s).2).1
          = some l
        ∧ l.head? = some input := by
  obtain ⟨c, p', hg⟩ := getconn_ok_of_capacity s.pool hcap
  have he : get_db_connection denv s.pool = (some c, p') := by
    unfold get_db_connection
    rw [hconn, if_pos rfl, hg]
  have hlog : log_prediction denv ts input pred ver s
      = (true,
        { s with
            pool := p'.putconn c,
            predictions := s.predictions ++ [predRow ts input pred ver] }) := by
    unfold log_prediction
    rw [he]
    dsimp only
    rw [hser, hexec]
    rfl
  have hm : (log_prediction denv ts input pred ver s).2.predictions.filter (inWindow nowR)
      = s.predictions.filter (inWindow nowR) ++ [predRow ts input pred ver] := by
    rw [hlog]
    dsimp only
    rw [List.filter_append]
    simp [inWindow, predRow, hwin]
  set m := s.predictions.filter (inWindow nowR) ++ [predRow ts input pred ver] with hmdef
  have hnew_mem : predRow ts input pred ver ∈ m := by
    rw [hmdef]
    exact List.mem_append_right _ (List.mem_singleton.mpr rfl)
  have hmax : ∀ x ∈ m, x.timestamp ≤ (predRow ts input pred ver).timestamp := by
    intro x hx
    rcases List.mem_append.mp hx with hx | hx
    · exact Nat.le_of_lt (hfresh x (List.mem_of_mem_filter hx))
    · rw [List.mem_singleton.mp hx]
  have huniq : ∀ x ∈ m, x.timestamp = (predRow ts input pred ver).timestamp
      → x = predRow ts input pred ver := by
    intro x hx hxts
    rcases List.mem_append.mp hx with hx | hx
    · have := hfresh x (List.mem_of_mem_filter hx)
      rw [hxts] at this
      exact absurd this (Nat.lt_irrefl _)
    · exact List.mem_singleton.mp hx
  have hhead := head_insertionSort_max m (predRow ts input pred ver) hnew_mem hmax huniq
  have hmlen : 10 ≤ m.length := by
    rw [hmdef, List.length_append]
    simp only [List.length_singleton]
    omega
  have hlen : 10 ≤ ((m.insertionSort tsDesc).take 50).length := by
    rw [List.length_take, (List.perm_insertionSort tsDesc m).length_eq]
    omega
  refine ⟨by rw [hlog], ?_⟩
  have hgoal : (get_recent_predictions nowR (log_prediction denv ts input pred ver s).2).1
      = some (((m.insertionSort tsDesc).take 50).map (fun r => r.input_data)) := by
    unfold get_recent_predictions
    dsimp only
    rw [hm, if_pos hlen]
  refine ⟨_, hgoal, ?_⟩
  cases hsort : m.insertionSort tsDesc with
  | nil =>
    rw [hsort] at hhead
    cases hhead
  | cons h t =>
    rw [hsort] at hhead
    have hh : h = predRow ts input pred ver := Option.some.inj hhead
    rw [List.take_cons, List.map_cons, List.head?_cons, hh]
    · rfl
    · decide

/-- C7 witness: logging an all-new prediction into a 9-row window and
reading the window back returns its `input_data` as the first payload. -/
theorem c7_roundtrip_witness :
    (log_prediction ⟨true, true⟩ 200 [("CreditScore", Scalar.num 650)]
        (73/100) "v3" nineRowState).1 = true
    ∧ ∃ l, (get_recent_predictions 200 (log_prediction ⟨true, true⟩ 200
          [("CreditScore", Scalar.num 650)] (73/100) "v3" nineRowState).2).1
        = some l
      ∧ l.head? = some [("CreditScore", Scalar.num 650)] :=
  c7_roundtrip ⟨true, true⟩ 200 200 [("CreditScore", Scalar.num 650)]
    (73/100) "v3" nineRowState rfl rfl rfl (Or.inl (by decide))
    (by decide) (by decide) (by decide)

end MLOpsChurn
